import Mathlib

/-!
Shallow embedding of the control loops of the `hello-nucleo-f103rb`
examples: the LED command loop of `examples/serial_led_control.rs` and the
text-mode echo loop of `examples/serial_echo.rs`.  Machine bytes are
modelled as `Nat` values below 256 (the only u8 arithmetic, in
`convert_case`, is guarded so it never wraps; the wrap is still written
explicitly with `% 256`).  Serial output is modelled as a list of events:
single bytes written with `tx.write`, whole lines written with
`send_string`, and the help text.
-/

set_option maxRecDepth 100000

namespace Nucleo

/-- Blink period constant `BLINK_MS` shared by both examples. -/
def BLINK_MS : Nat := 500

/-- Strobe period constant `STROBE_MS` shared by both examples. -/
def STROBE_MS : Nat := 50

/-- Tick length `DELAY_MS` of the echo example. -/
def DELAY_MS : Nat := if BLINK_MS < STROBE_MS then BLINK_MS else STROBE_MS

/-- Counter modulus `DELAY_COUNTER_MAX` of the echo example. -/
def DELAY_COUNTER_MAX : Nat :=
  2 * (if STROBE_MS < BLINK_MS then BLINK_MS else STROBE_MS)

/-- Line-buffer capacity `BUFFER_SIZE`. -/
def BUFFER_SIZE : Nat := 128

/-- Distance between upper- and lower-case ASCII letters, `CASE_OFFSET`. -/
def CASE_OFFSET : Nat := 32

/-- Text conversion modes of the echo example. -/
inductive TextMode
  | NormalCase
  | ForceUpper
  | ForceLower
  | InvertedCase
  deriving DecidableEq, Repr

/-- LED modes of the echo example; `Blink` carries the period in ms. -/
inductive LedMode
  | Off
  | On
  | Blink (period : Nat)
  deriving DecidableEq, Repr

/-- Level that `LedMode::control_led` writes to the LED pin for a given
counter value (`true` = `set_high`). -/
def control_led : LedMode → Nat → Bool
  | .Off, _ => false
  | .On, _ => true
  | .Blink period, counter => (counter / period) % 2 == 0

/-- The `From<&TextMode> for LedMode` conversion of the echo example. -/
def ledModeFrom : TextMode → LedMode
  | .NormalCase => .Off
  | .ForceUpper => .On
  | .ForceLower => .Blink BLINK_MS
  | .InvertedCase => .Blink STROBE_MS

/-- Rust `is_lowercase`: ASCII range check `b'a'..=b'z'`. -/
def is_lowercase (c : Nat) : Bool := 97 ≤ c && c ≤ 122

/-- Rust `is_uppercase`: ASCII range check `b'A'..=b'Z'`. -/
def is_uppercase (c : Nat) : Bool := 65 ≤ c && c ≤ 90

/-- Rust `convert_case`: add `CASE_OFFSET` to upper-case letters in the
lowering modes, then subtract it from lower-case letters in the raising
modes.  u8 addition and subtraction are written with their wrap `% 256`
(the guards keep both steps in range, so the wrap is never exercised). -/
def convert_case (c : Nat) (text_mode : TextMode) : Nat :=
  let r1 := (c +
    match text_mode with
    | .ForceLower | .InvertedCase => if is_uppercase c then CASE_OFFSET else 0
    | _ => 0) % 256
  (r1 + 256 -
    match text_mode with
    | .ForceUpper | .InvertedCase => if is_lowercase c then CASE_OFFSET else 0
    | _ => 0) % 256

/-- Mode successor used on a button edge in the echo example's main loop. -/
def nextMode : TextMode → TextMode
  | .NormalCase => .ForceUpper
  | .ForceUpper => .ForceLower
  | .ForceLower => .InvertedCase
  | .InvertedCase => .NormalCase

/-- Result of the non-blocking `rx.read()` call. -/
inductive SerialInput
  | ok (c : Nat)
  | wouldBlock
  | otherErr
  deriving DecidableEq, Repr

/-- One serial output event of a tick. -/
inductive Out
  | txb (c : Nat)
  | sstr (msg : List Nat)
  | help
  deriving DecidableEq, Repr

/-- Bytes of an ASCII string literal. -/
def strBytes (s : String) : List Nat := s.toList.map Char.toNat

/-- Notification line sent when the text mode changes. -/
def modeMessage : TextMode → List Nat
  | .NormalCase => strBytes "Use normal case."
  | .ForceUpper => strBytes "Force upper case."
  | .ForceLower => strBytes "Force lower case."
  | .InvertedCase => strBytes "Use inverted case."

/-- Loop state of `examples/serial_echo.rs`: the 128-byte line buffer with
its write index, the waveform counter, the remembered button level, and the
current text mode. -/
structure EchoState where
  buffer : List Nat
  index : Nat
  counter : Nat
  button_down : Bool
  text_mode : TextMode
  deriving DecidableEq, Repr

/-- Initial echo-loop state (zeroed buffer, index 0, counter 0, button up,
normal case). -/
def initEcho : EchoState :=
  { buffer := List.replicate BUFFER_SIZE 0
    index := 0
    counter := 0
    button_down := false
    text_mode := .NormalCase }

/-- The `Ok(c)` catch-all arm of the echo match: store the raw byte and
echo it back case-converted when the buffer has room, silently drop it
otherwise. -/
def appendEcho (c : Nat) (s : EchoState) : EchoState × List Out :=
  if s.index < BUFFER_SIZE then
    ({ s with buffer := s.buffer.set s.index c, index := s.index + 1 },
     [Out.txb (convert_case c s.text_mode)])
  else (s, [])

/-- Bytes written by `flush_buffer`: a carriage return, then the first
`index` buffered bytes converted with the mode passed at the call. -/
def flush_buffer (buffer : List Nat) (index : Nat) (text_mode : TextMode) :
    List Nat :=
  13 :: (buffer.take index).map (fun c => convert_case c text_mode)

/-- The `match rx.read()` block of the echo loop.  Returns the updated
state, the bytes/lines written inside the match, and the local
`mode_change`, `do_flush_buffer` and `reset_buffer` flags it sets. -/
def serialStepEcho (input : SerialInput) (s : EchoState) :
    EchoState × List Out × Bool × Bool × Bool :=
  match input with
  | .ok 63 => (s, [Out.help], false, false, false)
  | .ok 61 =>
    if s.text_mode ≠ TextMode.NormalCase then
      ({ s with text_mode := .NormalCase }, [], true, false, false)
    else (s, [], false, false, false)
  | .ok 43 =>
    if s.text_mode ≠ TextMode.ForceUpper then
      ({ s with text_mode := .ForceUpper }, [], true, false, false)
    else (s, [], false, false, false)
  | .ok 45 =>
    if s.text_mode ≠ TextMode.ForceLower then
      ({ s with text_mode := .ForceLower }, [], true, false, false)
    else (s, [], false, false, false)
  | .ok 126 =>
    if s.text_mode ≠ TextMode.InvertedCase then
      ({ s with text_mode := .InvertedCase }, [], true, false, false)
    else (s, [], false, false, false)
  | .ok 13 => (s, [], false, true, true)
  | .ok c =>
    let r := appendEcho c s
    (r.1, r.2, false, false, false)
  | .wouldBlock => (s, [], false, false, false)
  | .otherErr => (s, [], false, false, false)

/-- Counter update at the bottom of the echo loop. -/
def advanceEchoCounter (counter : Nat) : Nat :=
  (counter + DELAY_MS) % DELAY_COUNTER_MAX

/-- One iteration of the echo example's main loop: serial match, button
edge detection and mode cycling, mode-change notification, flush, buffer
reset, counter advance.  The second component collects the serial output
of the tick in order. -/
def tickEcho (input : SerialInput) (button_state : Bool) (s : EchoState) :
    EchoState × List Out :=
  let r := serialStepEcho input s
  let s1 := r.1
  let out1 := r.2.1
  let mc0 := r.2.2.1
  let df0 := r.2.2.2.1
  let rb0 := r.2.2.2.2
  let edge := button_state && !s1.button_down
  let s2 := { s1 with
    text_mode := if edge then nextMode s1.text_mode else s1.text_mode
    button_down := button_state }
  let mc1 := mc0 || edge
  let out2 := if mc1 then [Out.sstr (modeMessage s2.text_mode)] else []
  let df1 := df0 || mc1
  let out3 :=
    if df1 && decide (0 < s2.index) then
      (flush_buffer s2.buffer s2.index s2.text_mode).map Out.txb
    else []
  let s3 := if rb0 && decide (0 < s2.index) then { s2 with index := 0 } else s2
  let out4 :=
    if rb0 && decide (0 < s2.index) then [Out.txb 13, Out.txb 10] else []
  ({ s3 with counter := advanceEchoCounter s3.counter },
   out1 ++ out2 ++ out3 ++ out4)

/-- Loop state of `examples/serial_led_control.rs` (the constant
`static_on = true` is left implicit). -/
structure LcState where
  counter : Nat
  static_enable : Bool
  blink_enable : Bool
  strobe_on : Bool
  strobe_enable : Bool
  controlled_on : Bool
  controlled_enable : Bool
  controlled_inversion : Bool
  deriving DecidableEq, Repr

/-- Initial state of the LED-control loop. -/
def initLc : LcState :=
  { counter := 0
    static_enable := true
    blink_enable := true
    strobe_on := false
    strobe_enable := true
    controlled_on := false
    controlled_enable := true
    controlled_inversion := false }

/-- The `match rx.read()` block of the LED-control loop. -/
def serialStepLc (input : SerialInput) (s : LcState) : LcState × List Out :=
  match input with
  | .ok 63 => (s, [Out.help])
  | .ok 48 =>
    if s.static_enable || s.blink_enable || s.strobe_enable ||
        s.controlled_enable then
      ({ s with
          static_enable := false
          blink_enable := false
          strobe_enable := false
          controlled_enable := false },
       [Out.sstr (strBytes "All LEDs disabled.")])
    else (s, [])
  | .ok 49 =>
    if !s.static_enable || !s.blink_enable || !s.strobe_enable ||
        !s.controlled_enable then
      ({ s with
          static_enable := true
          blink_enable := true
          strobe_enable := true
          controlled_enable := true },
       [Out.sstr (strBytes "All LEDs enabled.")])
    else (s, [])
  | .ok 50 =>
    ({ s with static_enable := !s.static_enable },
     [Out.sstr (strBytes
       (if !s.static_enable then "Static enabled." else "Static disabled."))])
  | .ok 51 =>
    ({ s with blink_enable := !s.blink_enable },
     [Out.sstr (strBytes
       (if !s.blink_enable then "Blink enabled." else "Blink disabled."))])
  | .ok 52 =>
    ({ s with strobe_enable := !s.strobe_enable },
     [Out.sstr (strBytes
       (if !s.strobe_enable then "Strobe enabled." else "Strobe disabled."))])
  | .ok 53 =>
    ({ s with controlled_enable := !s.controlled_enable },
     [Out.sstr (strBytes
       (if !s.controlled_enable then "Controlled enabled."
        else "Controlled disabled."))])
  | .ok 57 =>
    ({ s with controlled_inversion := !s.controlled_inversion },
     [Out.sstr (strBytes
       (if !s.controlled_inversion then "LED control inversion enabled."
        else "LED control inversion disabled."))])
  | .ok _ => (s, [])
  | .wouldBlock => (s, [])
  | .otherErr => (s, [])

/-- Counter and strobe update of the LED-control loop: add `STROBE_MS`,
reset to zero only when the sum strictly exceeds `2 * BLINK_MS`, and flip
`strobe_on` unconditionally. -/
def advanceLc (s : LcState) : LcState :=
  let c1 := s.counter + STROBE_MS
  { s with
    counter := if 2 * BLINK_MS < c1 then 0 else c1
    strobe_on := !s.strobe_on }

/-- Blink signal of the LED-control loop: `blink_on = BLINK_MS <= counter`. -/
def blink_onLc (counter : Nat) : Bool := decide (BLINK_MS ≤ counter)

/-- Controlled-LED update: `button_state = button.is_low() != inversion`,
then latch `controlled_on` and emit the on/off notification on a change
while enabled. -/
def controlledUpdate (button_is_low : Bool) (s : LcState) : LcState × List Out :=
  let button_state := button_is_low != s.controlled_inversion
  if button_state then
    ({ s with controlled_on := true },
     if s.controlled_enable && !s.controlled_on then
       [Out.sstr (strBytes "Controlled LED on.")]
     else [])
  else
    ({ s with controlled_on := false },
     if s.controlled_enable && s.controlled_on then
       [Out.sstr (strBytes "Controlled LED off.")]
     else [])

/-- Level written to the controlled LED group at the bottom of the loop. -/
def controlledLevel (s : LcState) : Bool :=
  if !s.controlled_inversion then s.controlled_enable && s.controlled_on
  else !s.controlled_enable || s.controlled_on

/-- Fold of the catch-all append arm over a list of input bytes. -/
def appendIter (inputs : List Nat) (s : EchoState) : EchoState :=
  inputs.foldl (fun st c => (appendEcho c st).1) s

/-- State after feeding 128 copies of the byte 0x61 and then one byte 0x62
into the empty buffer. -/
def overflowState : EchoState :=
  appendIter (List.replicate 128 97 ++ [98]) initEcho

theorem take_succ_set (l : List Nat) (i c : Nat) (h : i < l.length) :
    (l.set i c).take (i + 1) = l.take i ++ [c] := by
  rw [List.set_eq_take_cons_drop c h, List.take_append_eq_append_take]
  simp [List.length_take, Nat.min_eq_left (Nat.le_of_lt h), List.take_take]

theorem nextMode_iterate_four (m : TextMode) : nextMode^[4] m = m := by
  cases m <;> rfl

theorem nextMode_iterate_four_mul (q : Nat) (m : TextMode) :
    nextMode^[4 * q] m = m := by
  induction q with
  | zero => rfl
  | succ k ih =>
    rw [Nat.mul_succ, Function.iterate_add_apply, nextMode_iterate_four, ih]

theorem nextMode_iterate_mod (n : Nat) (m : TextMode) :
    nextMode^[n] m = nextMode^[n % 4] m := by
  conv_lhs => rw [← Nat.div_add_mod n 4]
  rw [Function.iterate_add_apply, nextMode_iterate_four_mul]

theorem nextMode_iterate_small :
    ∀ r : Nat, r < 4 →
      (nextMode^[r] TextMode.NormalCase = TextMode.NormalCase ↔ r = 0) := by
  decide

/-- C1: the Controlled channel update latches `controlled_on` to
`button_pressed XOR inversion`, and the level then written is
`enabled AND controlled_on` when the inversion flag is off and
`(NOT enabled) OR controlled_on` when it is on — for every combination of
enable, press and inversion flags (and any previous latch value). -/
theorem controlled_output_composition (s : LcState) (pressed : Bool) :
    ((controlledUpdate pressed s).1.controlled_on
        = Bool.xor pressed s.controlled_inversion) ∧
    (controlledLevel (controlledUpdate pressed s).1
        = if s.controlled_inversion then
            !s.controlled_enable || Bool.xor pressed s.controlled_inversion
          else
            s.controlled_enable && Bool.xor pressed s.controlled_inversion) := by
  cases s with
  | mk c se be so ste co ce ci =>
    cases ci <;> cases pressed <;> cases ce <;> cases co <;> exact ⟨rfl, rfl⟩

/-- C4: `advance` in the LED-control loop flips `strobe_on`
unconditionally — the new value is the negation of the old one whatever the
counter and the other fields hold, so two ticks return it to its old value:
a square wave of period two ticks, not derived from the counter. -/
theorem strobe_toggles_every_advance (s : LcState) :
    (advanceLc s).strobe_on = !s.strobe_on ∧
    (advanceLc (advanceLc s)).strobe_on = s.strobe_on := by
  refine ⟨rfl, ?_⟩
  simp [advanceLc]

/-- C9: a serial read reporting WouldBlock or any other transport error
performs no command action in either example: the serial match arm returns
the state unchanged, emits nothing, and raises no flags. -/
theorem transport_errors_ignored (s : EchoState) (t : LcState) :
    serialStepEcho .wouldBlock s = (s, [], false, false, false) ∧
    serialStepEcho .otherErr s = (s, [], false, false, false) ∧
    serialStepLc .wouldBlock t = (t, []) ∧
    serialStepLc .otherErr t = (t, []) :=
  ⟨rfl, rfl, rfl, rfl⟩

/-- C5: the case-conversion table — identity for NormalCase; lower-case
letters lose 0x20 under ForceUpper; upper-case letters gain 0x20 under
ForceLower; InvertedCase does both; and every non-letter byte passes
through unchanged under every mode. -/
theorem convert_case_table :
    ∀ c : Nat, c < 256 →
      (convert_case c .NormalCase = c) ∧
      (convert_case c .ForceUpper
          = if is_lowercase c then c - CASE_OFFSET else c) ∧
      (convert_case c .ForceLower
          = if is_uppercase c then c + CASE_OFFSET else c) ∧
      (convert_case c .InvertedCase
          = if is_lowercase c then c - CASE_OFFSET
            else if is_uppercase c then c + CASE_OFFSET else c) ∧
      (is_lowercase c = false → is_uppercase c = false →
        convert_case c .NormalCase = c ∧ convert_case c .ForceUpper = c ∧
        convert_case c .ForceLower = c ∧ convert_case c .InvertedCase = c) := by
  decide

/-- Witness for the case table at the bytes 0x61 and 0x40. -/
theorem convert_case_table_witness :
    (convert_case 97 TextMode.ForceUpper
        = if is_lowercase 97 then 97 - CASE_OFFSET else 97) ∧
    (is_lowercase 64 = false → is_uppercase 64 = false →
      convert_case 64 TextMode.NormalCase = 64 ∧
      convert_case 64 TextMode.ForceUpper = 64 ∧
      convert_case 64 TextMode.ForceLower = 64 ∧
      convert_case 64 TextMode.InvertedCase = 64) :=
  ⟨(convert_case_table 97 (by decide)).2.1,
   (convert_case_table 64 (by decide)).2.2.2.2⟩

/-- C6: the text mode advances exactly on the ticks where the sampled
button level is pressed and the previous sample was not, along the fixed
ring NormalCase → ForceUpper → ForceLower → InvertedCase → NormalCase, and
N edges from NormalCase return to NormalCase exactly when N is a multiple
of four. -/
theorem button_edge_mode_cycle :
    (∀ (level : Bool) (s : EchoState),
        (tickEcho .wouldBlock level s).1.text_mode
          = (if level && !s.button_down then nextMode s.text_mode
             else s.text_mode) ∧
        (tickEcho .wouldBlock level s).1.button_down = level) ∧
    (nextMode .NormalCase = .ForceUpper ∧ nextMode .ForceUpper = .ForceLower ∧
      nextMode .ForceLower = .InvertedCase ∧
      nextMode .InvertedCase = .NormalCase) ∧
    (∀ n : Nat, nextMode^[n] TextMode.NormalCase = TextMode.NormalCase
        ↔ n % 4 = 0) := by
  refine ⟨fun level s => ⟨rfl, rfl⟩, ⟨rfl, rfl, rfl, rfl⟩, fun n => ?_⟩
  rw [nextMode_iterate_mod]
  exact nextMode_iterate_small (n % 4) (Nat.mod_lt n (by decide))

/-- C7: the write index never exceeds the capacity 128 — appending below
capacity stores the byte and increments the index, appending at capacity
leaves the state unchanged and emits nothing, and after 129 appends to the
empty buffer the index is 128 and the 129th byte is absent from the flush
output. -/
theorem line_buffer_capacity :
    (∀ (c : Nat) (s : EchoState), s.index ≤ BUFFER_SIZE →
        (appendEcho c s).1.index ≤ BUFFER_SIZE) ∧
    (∀ (c : Nat) (s : EchoState), s.index = BUFFER_SIZE →
        appendEcho c s = (s, [])) ∧
    (∀ (c : Nat) (s : EchoState), s.index < BUFFER_SIZE →
        (appendEcho c s).1.index = s.index + 1 ∧
        (appendEcho c s).1.buffer = s.buffer.set s.index c) ∧
    (overflowState.index = 128 ∧
      ¬ 98 ∈ flush_buffer overflowState.buffer overflowState.index
          TextMode.NormalCase) := by
  refine ⟨?_, ?_, ?_, by decide⟩
  · intro c s h
    by_cases hc : s.index < BUFFER_SIZE
    · simp only [appendEcho, if_pos hc]
      exact hc
    · simp only [appendEcho, if_neg hc]
      exact h
  · intro c s h
    have hc : ¬ s.index < BUFFER_SIZE := by omega
    simp only [appendEcho, if_neg hc]
  · intro c s h
    simp [appendEcho, if_pos h]

/-- Witness for the capacity bounds at concrete buffer states. -/
theorem line_buffer_capacity_witness :
    (appendEcho 97 initEcho).1.index ≤ BUFFER_SIZE ∧
    appendEcho 98 { initEcho with index := 128 }
      = ({ initEcho with index := 128 }, []) ∧
    (appendEcho 99 initEcho).1.index = initEcho.index + 1 :=
  ⟨line_buffer_capacity.1 97 initEcho (by decide),
   line_buffer_capacity.2.1 98 { initEcho with index := 128 } rfl,
   (line_buffer_capacity.2.2.1 99 initEcho (by decide)).1⟩

/-- C8: bytes are buffered unconverted while the immediate echo converts
with the mode current at entry; a carriage-return tick flushes every
buffered byte converted with the mode current at flush time; concretely,
with mode ForceUpper the inputs 0x61, 0x62, CR echo as 0x41, 0x42 and the
CR tick emits the flush CR, 0x41, 0x42 followed by the reset CR LF. -/
theorem flush_converts_at_flush_time :
    (∀ (c : Nat) (s : EchoState), s.index < BUFFER_SIZE →
        s.buffer.length = BUFFER_SIZE →
        (appendEcho c s).1.buffer.take (appendEcho c s).1.index
            = s.buffer.take s.index ++ [c] ∧
        (appendEcho c s).2 = [Out.txb (convert_case c s.text_mode)]) ∧
    (∀ s : EchoState, 0 < s.index →
        (tickEcho (.ok 13) false s).2
          = (flush_buffer s.buffer s.index s.text_mode).map Out.txb
              ++ [Out.txb 13, Out.txb 10]) ∧
    (((tickEcho (.ok 97) false { initEcho with text_mode := .ForceUpper }).2
        = [Out.txb 65]) ∧
      ((tickEcho (.ok 98) false
          (tickEcho (.ok 97) false
            { initEcho with text_mode := .ForceUpper }).1).2
        = [Out.txb 66]) ∧
      ((tickEcho (.ok 13) false
          (tickEcho (.ok 98) false
            (tickEcho (.ok 97) false
              { initEcho with text_mode := .ForceUpper }).1).1).2
        = [Out.txb 13, Out.txb 65, Out.txb 66, Out.txb 13, Out.txb 10]) ∧
      ((tickEcho (.ok 13) false
          (tickEcho (.ok 98) false
            (tickEcho (.ok 97) false
              { initEcho with text_mode := .ForceUpper }).1).1).1.index
        = 0)) := by
  refine ⟨?_, ?_, by decide⟩
  · intro c s h hlen
    have hl : s.index < s.buffer.length := by rw [hlen]; exact h
    constructor
    · simp only [appendEcho, if_pos h]
      exact take_succ_set s.buffer s.index c hl
    · simp [appendEcho, if_pos h]
  · intro s h
    simp [tickEcho, serialStepEcho, h]

/-- Witness for the append and flush facts at a concrete state. -/
theorem flush_converts_at_flush_time_witness :
    (appendEcho 97 initEcho).1.buffer.take (appendEcho 97 initEcho).1.index
        = initEcho.buffer.take initEcho.index ++ [97] ∧
    (tickEcho (.ok 13) false (appendEcho 97 initEcho).1).2
        = (flush_buffer (appendEcho 97 initEcho).1.buffer
              (appendEcho 97 initEcho).1.index
              (appendEcho 97 initEcho).1.text_mode).map Out.txb
            ++ [Out.txb 13, Out.txb 10] :=
  ⟨(flush_converts_at_flush_time.1 97 initEcho (by decide) (by decide)).1,
   flush_converts_at_flush_time.2.1 (appendEcho 97 initEcho).1 (by decide)⟩

/-- C10: every mode change — via one of the four command bytes or via a
button edge — emits the notification line for the new mode and then, when
the buffer is non-empty, immediately re-flushes the whole buffer converted
under the new mode, leaving the buffer contents and write index unchanged;
a subsequent carriage-return tick therefore flushes the same bytes again
before resetting the index. -/
theorem mode_change_notifies_and_reflushes :
    (∀ s : EchoState, s.text_mode ≠ TextMode.NormalCase →
        tickEcho (.ok 61) false s
          = ({ s with
                text_mode := .NormalCase
                button_down := false
                counter := advanceEchoCounter s.counter },
             Out.sstr (modeMessage .NormalCase) ::
               (if 0 < s.index then
                  (flush_buffer s.buffer s.index .NormalCase).map Out.txb
                else []))) ∧
    (∀ s : EchoState, s.text_mode ≠ TextMode.ForceUpper →
        tickEcho (.ok 43) false s
          = ({ s with
                text_mode := .ForceUpper
                button_down := false
                counter := advanceEchoCounter s.counter },
             Out.sstr (modeMessage .ForceUpper) ::
               (if 0 < s.index then
                  (flush_buffer s.buffer s.index .ForceUpper).map Out.txb
                else []))) ∧
    (∀ s : EchoState, s.text_mode ≠ TextMode.ForceLower →
        tickEcho (.ok 45) false s
          = ({ s with
                text_mode := .ForceLower
                button_down := false
                counter := advanceEchoCounter s.counter },
             Out.sstr (modeMessage .ForceLower) ::
               (if 0 < s.index then
                  (flush_buffer s.buffer s.index .ForceLower).map Out.txb
                else []))) ∧
    (∀ s : EchoState, s.text_mode ≠ TextMode.InvertedCase →
        tickEcho (.ok 126) false s
          = ({ s with
                text_mode := .InvertedCase
                button_down := false
                counter := advanceEchoCounter s.counter },
             Out.sstr (modeMessage .InvertedCase) ::
               (if 0 < s.index then
                  (flush_buffer s.buffer s.index .InvertedCase).map Out.txb
                else []))) ∧
    (∀ s : EchoState, s.button_down = false →
        tickEcho .wouldBlock true s
          = ({ s with
                text_mode := nextMode s.text_mode
                button_down := true
                counter := advanceEchoCounter s.counter },
             Out.sstr (modeMessage (nextMode s.text_mode)) ::
               (if 0 < s.index then
                  (flush_buffer s.buffer s.index
                      (nextMode s.text_mode)).map Out.txb
                else []))) ∧
    (∀ s : EchoState, 0 < s.index →
        (tickEcho (.ok 13) false s).1.index = 0 ∧
        (tickEcho (.ok 13) false s).2
          = (flush_buffer s.buffer s.index s.text_mode).map Out.txb
              ++ [Out.txb 13, Out.txb 10]) := by
  refine ⟨?_, ?_, ?_, ?_, ?_, ?_⟩
  · intro s h
    by_cases hi : 0 < s.index <;>
      simp [tickEcho, serialStepEcho, h, hi]
  · intro s h
    by_cases hi : 0 < s.index <;>
      simp [tickEcho, serialStepEcho, h, hi]
  · intro s h
    by_cases hi : 0 < s.index <;>
      simp [tickEcho, serialStepEcho, h, hi]
  · intro s h
    by_cases hi : 0 < s.index <;>
      simp [tickEcho, serialStepEcho, h, hi]
  · intro s h
    by_cases hi : 0 < s.index <;>
      simp [tickEcho, serialStepEcho, h, hi]
  · intro s h
    constructor <;> simp [tickEcho, serialStepEcho, h]

/-- Witness: a button-edge tick from the initial state notifies the new
mode; the buffer is empty so nothing is re-flushed. -/
theorem mode_change_notifies_and_reflushes_witness :
    tickEcho .wouldBlock true initEcho
      = ({ initEcho with
            text_mode := nextMode initEcho.text_mode
            button_down := true
            counter := advanceEchoCounter initEcho.counter },
         Out.sstr (modeMessage (nextMode initEcho.text_mode)) ::
           (if 0 < initEcho.index then
              (flush_buffer initEcho.buffer initEcho.index
                  (nextMode initEcho.text_mode)).map Out.txb
            else [])) :=
  mode_change_notifies_and_reflushes.2.2.2.2.1 initEcho rfl

theorem advanceEchoCounter_iterate (n c : Nat) :
    advanceEchoCounter^[n + 1] c
      = (c + DELAY_MS * (n + 1)) % DELAY_COUNTER_MAX := by
  induction n with
  | zero => simp [advanceEchoCounter]
  | succ k ih =>
    rw [Function.iterate_succ_apply', ih]
    simp only [advanceEchoCounter, Nat.mod_add_mod]
    congr 1

/-- C2 counterexample: after 20 ticks from startup the control-variant
counter is 1000 — not the modular value (950 + 50) mod 1000 = 0 the claim
requires — and it lies outside [0, 2 * BLINK_MS). -/
theorem counter_not_modular_counterexample :
    (advanceLc^[20] initLc).counter = 1000 ∧
    ((advanceLc^[19] initLc).counter + STROBE_MS) % (2 * BLINK_MS) = 0 ∧
    (advanceLc^[20] initLc).counter
      ≠ ((advanceLc^[19] initLc).counter + STROBE_MS) % (2 * BLINK_MS) ∧
    ¬ (advanceLc^[20] initLc).counter < 2 * BLINK_MS := by
  decide

/-- C2 amended: the echo variant advances its counter modularly — the
counter becomes (counter + 50) mod 1000, stays below 1000 and cycles with
period exactly 20 ticks (1000 ms); the control variant adds 50 and resets
to 0 only when the sum strictly exceeds 1000, so its counter stays in
[0, 1000] — reaching 1000 — and cycles from startup with period 21 ticks
(1050 ms). -/
theorem counter_advance_per_variant :
    (∀ c : Nat, advanceEchoCounter c = (c + DELAY_MS) % (2 * BLINK_MS)) ∧
    (∀ c : Nat, advanceEchoCounter c < 2 * BLINK_MS) ∧
    (∀ c : Nat, c < 2 * BLINK_MS → advanceEchoCounter^[20] c = c) ∧
    (∀ s : LcState, (advanceLc s).counter
        = if 2 * BLINK_MS < s.counter + STROBE_MS then 0
          else s.counter + STROBE_MS) ∧
    (∀ s : LcState, s.counter ≤ 2 * BLINK_MS →
        (advanceLc s).counter ≤ 2 * BLINK_MS) ∧
    ((advanceLc^[21] initLc).counter = 0 ∧
      ∀ k : Nat, k < 21 → 0 < k → (advanceLc^[k] initLc).counter ≠ 0) := by
  refine ⟨fun c => rfl, fun c => Nat.mod_lt _ (by decide), ?_, fun s => rfl,
    ?_, by decide⟩
  · intro c hc
    have hM : (2 : Nat) * BLINK_MS = 1000 := rfl
    rw [hM] at hc
    have h : advanceEchoCounter^[20] c = (c + DELAY_MS * 20) % DELAY_COUNTER_MAX :=
      advanceEchoCounter_iterate 19 c
    rw [show DELAY_MS = 50 from rfl, show DELAY_COUNTER_MAX = 1000 from rfl] at h
    rw [h]
    omega
  · intro s h
    have hM : (2 : Nat) * BLINK_MS = 1000 := rfl
    have hS : STROBE_MS = 50 := rfl
    rw [hM] at h ⊢
    show (if 2 * BLINK_MS < s.counter + STROBE_MS then 0
      else s.counter + STROBE_MS) ≤ 1000
    rw [hM, hS]
    split <;> omega

/-- Witness for the amended counter facts at concrete inputs. -/
theorem counter_advance_per_variant_witness :
    advanceEchoCounter^[20] 0 = 0 ∧ (advanceLc initLc).counter ≤ 2 * BLINK_MS :=
  ⟨counter_advance_per_variant.2.2.1 0 (by decide),
   counter_advance_per_variant.2.2.2.2.1 initLc (by decide)⟩

/-- C3 counterexample: in the echo variant's `control_led`, at counter 0 —
inside [0, 500) — the Blink(500) LED is driven high, and at counter 500 it
is driven low: the opposite of the claimed polarity. -/
theorem blink_polarity_counterexample :
    control_led (LedMode.Blink BLINK_MS) 0 = true ∧
    control_led (LedMode.Blink BLINK_MS) 500 = false := by
  decide

/-- C3 amended: the two variants drive the blink waveform with opposite
phase — the control variant's `blink_on = (BLINK_MS ≤ counter)` is false on
[0, 500) and true from 500 on, while the echo variant's `control_led`
drives the Blink(500) LED high on [0, 500) and low on [500, 1000). -/
theorem blink_half_periods :
    (∀ c : Nat, c < BLINK_MS → blink_onLc c = false) ∧
    (∀ c : Nat, BLINK_MS ≤ c → blink_onLc c = true) ∧
    (∀ c : Nat, c < BLINK_MS → control_led (LedMode.Blink BLINK_MS) c = true) ∧
    (∀ c : Nat, c < 2 * BLINK_MS → BLINK_MS ≤ c →
        control_led (LedMode.Blink BLINK_MS) c = false) := by
  refine ⟨?_, ?_, ?_, by decide⟩
  · intro c h
    simp only [blink_onLc, decide_eq_false_iff_not]
    omega
  · intro c h
    simp only [blink_onLc, decide_eq_true_eq]
    exact h
  · intro c h
    simp only [control_led]
    rw [Nat.div_eq_of_lt h]
    rfl

/-- Witness for the blink half-period facts at concrete counters. -/
theorem blink_half_periods_witness :
    blink_onLc 0 = false ∧ blink_onLc 700 = true ∧
    control_led (LedMode.Blink BLINK_MS) 0 = true ∧
    control_led (LedMode.Blink BLINK_MS) 700 = false :=
  ⟨blink_half_periods.1 0 (by decide),
   blink_half_periods.2.1 700 (by decide),
   blink_half_periods.2.2.1 0 (by decide),
   blink_half_periods.2.2.2 700 (by decide) (by decide)⟩

end Nucleo
